/-
Verification of the telemetry-dashboard view core of this repository:
the adjacent-rows windowing algorithm (`getAdjacentPositions`), the
snapshot row selection (`getRelevantRaceTableRows` / `getPlayerPosition`
in telemetryRenderer.js), the pace-comparison overlay
(paceComparisonOverlay.js) and the lap-time history widget
(LapTimeTableWidget).

JavaScript semantics relevant here are made explicit:
* `null` and `undefined` field values are `Option` / a dedicated `JsVal`
  type where the distinction matters (`NaN` converts to index 0 in
  `Array.prototype.slice`, while an `undefined` end argument means
  "length of the array").
* JS numbers in this code are always integers (millisecond times, ranks,
  counts), so they are embedded as `Int` (or `Nat` for bit flags).
-/
import Mathlib

namespace F1Telemetry

/-! ## JavaScript value and array primitives used by the embedding -/

/-- A JavaScript numeric-ish value as it flows through
`getRelevantRaceTableRows`: a number, `NaN`, or `undefined`. -/
inductive JsVal : Type where
  | num (n : Int)
  | nan
  | undefined
  deriving DecidableEq, Repr

/-- JS subtraction `a - k` where `a` may be `undefined` or `NaN`
(`undefined - 1` is `NaN`, `NaN - 1` is `NaN`). -/
def jsSub (a : JsVal) (k : Int) : JsVal :=
  match a with
  | .num n => .num (n - k)
  | _ => .nan

/-- JS array indexing `l[i]` with an integer index: out-of-range (including
negative) indices yield `undefined`. -/
def jsIndex (l : List Int) (i : Int) : JsVal :=
  if 0 ≤ i then
    match l.get? i.toNat with
    | some v => .num v
    | none => .undefined
  else .undefined

/-- The start index of `Array.prototype.slice`: `ToIntegerOrInfinity` maps
`NaN` and `undefined` to `0`; a negative number counts from the end,
clamped to `0`; a non-negative number is clamped to the length. -/
def sliceStartIdx (len : Nat) : JsVal → Nat
  | .num k => if k < 0 then ((len : Int) + k).toNat else min k.toNat len
  | .nan => 0
  | .undefined => 0

/-- The end index of `Array.prototype.slice`: like the start index, except
that an `undefined` end argument means the array length. -/
def sliceEndIdx (len : Nat) : JsVal → Nat
  | .num k => if k < 0 then ((len : Int) + k).toNat else min k.toNat len
  | .nan => 0
  | .undefined => len

/-- `Array.prototype.slice(start, end)` on a list, with JS index
conversion for both arguments. -/
def jsSlice {α : Type} (l : List α) (s e : JsVal) : List α :=
  (l.take (sliceEndIdx l.length e)).drop (sliceStartIdx l.length s)

/-- `Array.from({length: hi - lo + 1}, (_, i) => lo + i)`: the inclusive
integer range from `lo` to `hi` (empty when `hi < lo`, since `ToLength`
clamps a negative length to `0`). -/
def intRange (lo hi : Int) : List Int :=
  (List.range (hi - lo + 1).toNat).map (fun (i : Nat) => lo + (i : Int))

/-! ## telemetryRenderer.js : the windowing algorithm

`getAdjacentPositions(position, total_cars, num_adjacent_cars)` is
embedded as three sequential bound computations followed by the range
materialisation, exactly mirroring the statement order of the source. -/

/-- The bounds set up by the first `if`/`else` of `getAdjacentPositions`:
the full range `[1, total_cars]` when `num_adjacent_cars >= total_cars`
(time-trial case), otherwise `[position - num_adjacent_cars,
position + num_adjacent_cars]`. -/
def initialBounds (pos total_cars num_adjacent_cars : Int) : Int × Int :=
  if num_adjacent_cars ≥ total_cars then (1, total_cars)
  else (pos - num_adjacent_cars, pos + num_adjacent_cars)

/-- The first boundary correction: if `lower_bound <
min_valid_lower_bound` (= 1), shift the window right and clamp the lower
bound at 1. -/
def correctLower (b : Int × Int) : Int × Int :=
  if b.1 < 1 then (1, b.2 + (1 - b.1)) else b

/-- The second boundary correction: if `upper_bound > total_cars`, shift
the window left and clamp the upper bound at `total_cars`. -/
def correctUpper (total_cars : Int) (b : Int × Int) : Int × Int :=
  if b.2 > total_cars then (b.1 - (b.2 - total_cars), total_cars) else b

/-- The final `(lower_bound, upper_bound)` pair of
`getAdjacentPositions` for an in-range position. -/
def adjacentBounds (pos total_cars num_adjacent_cars : Int) : Int × Int :=
  correctUpper total_cars (correctLower (initialBounds pos total_cars num_adjacent_cars))

/-- `TelemetryRenderer.getAdjacentPositions`. The position argument is
`Option Int` because the caller passes `getPlayerPosition`'s result,
which may be `null`; in JS `null >= 1` is false, so the guard rejects it. -/
def getAdjacentPositions (position : Option Int) (total_cars num_adjacent_cars : Int) :
    List Int :=
  match position with
  | none => []
  | some pos =>
    if pos ≥ 1 ∧ pos ≤ total_cars then
      let b := adjacentBounds pos total_cars num_adjacent_cars
      intRange b.1 b.2
    else []

/-! ## telemetryRenderer.js : snapshot row selection -/

/-- The `driver-info` fields of a table entry that row selection reads. -/
structure DriverInfo : Type where
  index : Int
  isPlayer : Bool
  position : Int
  deriving DecidableEq, Repr

/-- One record of the snapshot's `table-entries` sequence. -/
structure TableEntry : Type where
  driverInfo : DriverInfo
  deriving DecidableEq, Repr

/-- The snapshot fields that `getRelevantRaceTableRows` reads. -/
structure RaceSnapshot : Type where
  tableEntries : List TableEntry
  isSpectating : Bool
  raceEnded : Bool
  deriving DecidableEq, Repr

/-- `TelemetryRenderer.getPlayerPosition`: the position of the first entry
whose `driver-info.is-player` is set, `null` (here `none`) when no entry
has it. -/
def getPlayerPosition (data : RaceSnapshot) : Option Int :=
  (data.tableEntries.find? (fun e => e.driverInfo.isPlayer)).map
    (fun e => e.driverInfo.position)

/-- `TelemetryRenderer.getRelevantRaceTableRows`, with the global
preference `g_pref_numAdjacentCars` passed explicitly. The index
arithmetic keeps JS semantics: on an empty window `relevantPositions[0]`
is `undefined`, so `lowerIndex` is `NaN` and `upperIndex` is `undefined`. -/
def getRelevantRaceTableRows (data : RaceSnapshot) (numAdjacentCars : Int) :
    List TableEntry :=
  if data.tableEntries.length = 0 then []
  else if data.isSpectating || data.raceEnded then data.tableEntries
  else
    let totalCars : Int := data.tableEntries.length
    let playerPosition := getPlayerPosition data
    let relevantPositions := getAdjacentPositions playerPosition totalCars numAdjacentCars
    let lowerIndex := jsSub (jsIndex relevantPositions 0) 1
    let upperIndex := jsIndex relevantPositions ((relevantPositions.length : Int) - 1)
    jsSlice data.tableEntries lowerIndex upperIndex

/-! ## paceComparisonOverlay.js : the pace-comparison overlay

DOM elements are embedded as a state record; `update` maps the old state
and the incoming data object to the new state. `console.error` is
modelled by a boolean that records whether the current `update` call
logged the both-sides-unavailable anomaly. -/

/-- The fields of `data['player']` / `data['prev']` / `data['next']` that
`PaceComparison` reads; `none` embeds JS `null`. -/
structure PaceDriverData : Type where
  name : Option String
  lastMs : Option Int
  sector1Ms : Option Int
  sector2Ms : Option Int
  sector3Ms : Option Int
  lapMs : Option Int
  deriving DecidableEq, Repr

/-- The argument object of `PaceComparison.update`. -/
structure PaceData : Type where
  player : PaceDriverData
  prev : PaceDriverData
  next : PaceDriverData
  deriving DecidableEq, Repr

/-- The DOM state the overlay writes: text contents of the delta and
sector elements, their colour class (from `#updateElementDelta`), the
driver-name texts, and the logging flag for this update call. -/
structure PaceWidgetState : Type where
  prevDriverText : String
  nextDriverText : String
  prevDeltaText : String
  nextDeltaText : String
  prevDeltaClass : Option String
  nextDeltaClass : Option String
  prevSectorTexts : List String
  nextSectorTexts : List String
  prevSectorClasses : List (Option String)
  nextSectorClasses : List (Option String)
  loggedBothUnavailable : Bool
  deriving DecidableEq, Repr

/-- Left-pad the milliseconds part to three digits (the fractional part
produced by `toFixed(3)`). -/
def pad3 (n : Nat) : String :=
  if n < 10 then "00" ++ toString n
  else if n < 100 then "0" ++ toString n
  else toString n

/-- `#formatDelta(deltaMs)`. For an integer argument the JS guard
`!deltaMs && deltaMs !== 0` is always false (only `NaN` satisfies it),
so the result is the sign (`'+'` only for strictly positive) followed by
`|deltaMs|/1000` with three decimals. -/
def formatDelta (deltaMs : Int) : String :=
  (if deltaMs > 0 then "+" else "-") ++
    toString (deltaMs.natAbs / 1000) ++ "." ++ pad3 (deltaMs.natAbs % 1000)

/-- `#updateElementDelta`: the colour class left on the element —
`text-danger` for a positive delta, `text-success` for a negative one,
neither for zero. -/
def updateElementDelta (delta : Int) : Option String :=
  if delta > 0 then some "text-danger"
  else if delta < 0 then some "text-success"
  else none

/-- `#getDriverName` (the external helper `truncateName` is presentation
glue out of scope; the name is kept as uppercased text). -/
def getDriverName (driver : PaceDriverData) : String :=
  match driver.name with
  | none => "---"
  | some s => s.toUpper

/-- `#isDataAvailable`: all four of `last-ms`, `sector-1-ms`,
`sector-2-ms`, `sector-3-ms` are non-null. -/
def isDataAvailable (d : PaceDriverData) : Bool :=
  d.lastMs.isSome && d.sector1Ms.isSome && d.sector2Ms.isSome && d.sector3Ms.isSome

/-- JS subtraction of two possibly-null numbers (`ToNumber(null) = 0`),
as in `data['player']['lap-ms'] - data['prev']['lap-ms']`. -/
def jsSubOpt (a b : Option Int) : Int :=
  a.getD 0 - b.getD 0

/-- The player-vs-neighbour sector deltas of the `for` loop
(`i = 0, 1, 2`). -/
def sectorDeltas (player neighbour : PaceDriverData) : List Int :=
  [ jsSubOpt player.sector1Ms neighbour.sector1Ms,
    jsSubOpt player.sector2Ms neighbour.sector2Ms,
    jsSubOpt player.sector3Ms neighbour.sector3Ms ]

/-- `PaceComparison.update`. -/
def PaceComparison.update (st : PaceWidgetState) (data : PaceData) : PaceWidgetState :=
  -- this call has logged nothing yet
  let st := { st with loggedBothUnavailable := false }
  -- #clearPrevData / #clearNextData (texts only; classes are untouched)
  let st := { st with prevDeltaText := "---", prevSectorTexts := ["---", "---", "---"],
                      nextDeltaText := "---", nextSectorTexts := ["---", "---", "---"] }
  -- fill in the names if available (`data['prev']['name'] !== null`)
  let st := if data.prev.name.isSome then
      { st with prevDriverText := getDriverName data.prev }
    else st
  let st := if data.next.name.isSome then
      { st with nextDriverText := getDriverName data.next }
    else st
  -- if player's data is not available, do nothing
  if ¬ isDataAvailable data.player then st
  else
    let isPrevDataAvailable := isDataAvailable data.prev
    let isNextDataAvailable := isDataAvailable data.next
    let st :=
      if isPrevDataAvailable then
        let prevDelta := jsSubOpt data.player.lapMs data.prev.lapMs
        { st with prevDeltaText := formatDelta prevDelta,
                  prevDeltaClass := updateElementDelta prevDelta }
      else st
    let st :=
      if isNextDataAvailable then
        let nextDelta := jsSubOpt data.player.lapMs data.next.lapMs
        { st with nextDeltaText := formatDelta nextDelta,
                  nextDeltaClass := updateElementDelta nextDelta }
      else st
    if ¬ isPrevDataAvailable ∧ ¬ isNextDataAvailable then
      -- console.error("Both prev and next data are unavailable", data)
      { st with loggedBothUnavailable := true }
    else
      -- sector times and colours
      let st :=
        if isPrevDataAvailable then
          { st with prevSectorTexts := (sectorDeltas data.player data.prev).map formatDelta,
                    prevSectorClasses := (sectorDeltas data.player data.prev).map updateElementDelta }
        else st
      if isNextDataAvailable then
        { st with nextSectorTexts := (sectorDeltas data.player data.next).map formatDelta,
                  nextSectorClasses := (sectorDeltas data.player data.next).map updateElementDelta }
      else st

/-! ## LapTimeTableWidget (lap-time history widget) -/

/-- One record of `lap-time-history-data`. Times are milliseconds
(`0` encodes an absent time); `lapValidBitFlags` is the validity
bitmask (bit 0 = lap, bits 1..3 = sectors 1..3). -/
structure LapData : Type where
  tyreSetInfo : Option String
  lapTimeInMs : Int
  lapTimeStr : String
  sector1TimeInMs : Int
  sector1TimeStr : String
  sector2TimeInMs : Int
  sector2TimeStr : String
  sector3TimeInMs : Int
  sector3TimeStr : String
  lapValidBitFlags : Nat
  deriving DecidableEq, Repr

/-- The destructured fields of the `lapTimeHistory` argument of
`LapTimeTableWidget.update`. -/
structure LapTimeHistory : Type where
  fastestLapNumber : Int
  fastestS1LapNumber : Int
  fastestS2LapNumber : Int
  fastestS3LapNumber : Int
  globalFastestLapMs : Int
  globalFastestS1Ms : Int
  globalFastestS2Ms : Int
  globalFastestS3Ms : Int
  lapTimeHistoryData : List LapData
  deriving DecidableEq, Repr

/-- `LapTimeTableWidget.getValidTimeStr`: a 0 ms time renders as the
placeholder, anything else as its formatted string. -/
def getValidTimeStr (timeMs : Int) (timeStr : String) : String :=
  if timeMs = 0 then "---" else timeStr

/-- `LapTimeTableWidget.applyColourToCell`: the colour class added to a
cell. JS truthiness: `globalBestTime &&` skips the purple rule when the
global best is 0, `pbLapNum &&` skips the green rule when the
personal-best lap number is 0, and `!isValid` holds exactly when the
masked flag bits are 0. -/
def applyColourToCell (lapNum time globalBestTime pbLapNum : Int) (isValid : Nat) :
    Option String :=
  if globalBestTime ≠ 0 ∧ time = globalBestTime then some "text-purple"
  else if pbLapNum ≠ 0 ∧ lapNum = pbLapNum then some "text-success"
  else if isValid = 0 then some "text-danger"
  else none

/-- One rendered row of the lap-time table: the cell texts and the colour
class applied to each time cell. -/
structure RenderedLapRow : Type where
  lapNumber : Nat
  compound : Option String
  lapTimeText : String
  s1TimeText : String
  s2TimeText : String
  s3TimeText : String
  lapColour : Option String
  s1Colour : Option String
  s2Colour : Option String
  s3Colour : Option String
  deriving DecidableEq, Repr

/-- The body of the rendering loop of `LapTimeTableWidget.update` for the
entry at 0-based index `i` (lap number `i + 1`). -/
def renderLapRow (h : LapTimeHistory) (i : Nat) (lapData : LapData) : RenderedLapRow :=
  { lapNumber := i + 1
    compound := lapData.tyreSetInfo
    lapTimeText := getValidTimeStr lapData.lapTimeInMs lapData.lapTimeStr
    s1TimeText := getValidTimeStr lapData.sector1TimeInMs lapData.sector1TimeStr
    s2TimeText := getValidTimeStr lapData.sector2TimeInMs lapData.sector2TimeStr
    s3TimeText := getValidTimeStr lapData.sector3TimeInMs lapData.sector3TimeStr
    lapColour := applyColourToCell (i + 1) lapData.lapTimeInMs h.globalFastestLapMs
      h.fastestLapNumber (lapData.lapValidBitFlags &&& 1)
    s1Colour := applyColourToCell (i + 1) lapData.sector1TimeInMs h.globalFastestS1Ms
      h.fastestS1LapNumber (lapData.lapValidBitFlags &&& 2)
    s2Colour := applyColourToCell (i + 1) lapData.sector2TimeInMs h.globalFastestS2Ms
      h.fastestS2LapNumber (lapData.lapValidBitFlags &&& 4)
    s3Colour := applyColourToCell (i + 1) lapData.sector3TimeInMs h.globalFastestS3Ms
      h.fastestS3LapNumber (lapData.lapValidBitFlags &&& 8) }

/-- `LapTimeTableWidget.update`: clears the table, and for a non-null
history walks `lap-time-history-data` from the latest lap backwards,
rendering at most 5 rows. -/
def LapTimeTableWidget.update (lapTimeHistory : Option LapTimeHistory) :
    List RenderedLapRow :=
  match lapTimeHistory with
  | none => []
  | some h =>
    ((h.lapTimeHistoryData.enum.reverse.take 5).map (fun p => renderLapRow h p.1 p.2))

/-! ## Shared lemmas about the embedding -/

/-- Closed form of the bound computation of `getAdjacentPositions`:
full range when `total ≤ r`; otherwise the symmetric window, shifted
right when it underflows position 1, shifted left when it overflows
`total` — in both shift cases the resulting window is
`[total - 2r, total]` whenever the shifted window still overflows. -/
theorem adjacentBounds_eq (pos total r : Int) :
    adjacentBounds pos total r =
      if total ≤ r then (1, total)
      else if pos - r < 1 then
        (if total < 2 * r + 1 then (total - 2 * r, total) else (1, 2 * r + 1))
      else if total < pos + r then (total - 2 * r, total)
      else (pos - r, pos + r) := by
  unfold adjacentBounds correctUpper correctLower initialBounds
  split_ifs <;> simp_all [Prod.ext_iff] <;> omega

theorem intRange_length (lo hi : Int) : (intRange lo hi).length = (hi - lo + 1).toNat := by
  simp only [intRange, List.length_map, List.length_range]

theorem intRange_getElem (lo hi : Int) (i : Nat) (h : i < (intRange lo hi).length) :
    (intRange lo hi)[i] = lo + (i : Int) := by
  simp only [intRange, List.getElem_map, List.getElem_range]

theorem mem_intRange {lo hi x : Int} (h1 : lo ≤ x) (h2 : x ≤ hi) : x ∈ intRange lo hi := by
  simp only [intRange, List.mem_map, List.mem_range]
  refine ⟨(x - lo).toNat, ?_, ?_⟩
  · omega
  · omega

theorem intRange_ne_nil {lo hi : Int} (h : lo ≤ hi) : intRange lo hi ≠ [] := by
  have hlen := intRange_length lo hi
  intro hnil
  rw [hnil] at hlen
  simp only [List.length_nil] at hlen
  omega

/-- The materialised range is a run of consecutive ascending integers. -/
theorem intRange_chain' (lo hi : Int) :
    (intRange lo hi).Chain' (fun a b => b = a + 1) := by
  rw [List.chain'_iff_get]
  intro i h
  have h1 : i < (intRange lo hi).length := by omega
  have h2 : i + 1 < (intRange lo hi).length := by omega
  simp only [List.get_eq_getElem]
  rw [intRange_getElem lo hi i h1, intRange_getElem lo hi (i + 1) h2]
  push_cast
  ring

/-- `slice(NaN, undefined)` copies the whole array: the `NaN` start
converts to index 0 and the `undefined` end means the array length. -/
theorem jsSlice_nan_undefined {α : Type} (l : List α) :
    jsSlice l JsVal.nan JsVal.undefined = l := by
  simp [jsSlice, sliceStartIdx, sliceEndIdx]

/-- In-range guard: `getAdjacentPositions` on an in-range position is the
materialised range of `adjacentBounds`. -/
theorem getAdjacentPositions_of_inRange {pos total r : Int}
    (h1 : 1 ≤ pos) (h2 : pos ≤ total) :
    getAdjacentPositions (some pos) total r =
      intRange (adjacentBounds pos total r).1 (adjacentBounds pos total r).2 := by
  simp only [getAdjacentPositions]
  rw [if_pos ⟨h1, h2⟩]

/-- Out-of-range or null guard: `getAdjacentPositions` is empty. -/
theorem getAdjacentPositions_of_notInRange {position : Option Int} {total r : Int}
    (h : ∀ p, position = some p → ¬(1 ≤ p ∧ p ≤ total)) :
    getAdjacentPositions position total r = [] := by
  match position with
  | none => rfl
  | some p =>
    simp only [getAdjacentPositions]
    rw [if_neg (h p rfl)]

/-! ## Claims about the windowing algorithm -/

/-- C1 (counterexample): at `position = 3`, `totalCount = 5`,
`radius = 3` — which satisfies the claim's hypotheses `totalCount ≥ 1`,
`1 ≤ position ≤ totalCount`, `radius ≥ 0` — the code returns the range
`[-1, 5]`: its lower bound is below 1 and its width is `7`, not
`min(2·3+1, 5) = 5`. -/
theorem C1_counterexample :
    ((1 : Int) ≤ 3 ∧ (3 : Int) ≤ 5 ∧ (0 : Int) ≤ 3) ∧
    adjacentBounds 3 5 3 = (-1, 5) ∧
    getAdjacentPositions (some 3) 5 3 = intRange (-1) 5 ∧
    getAdjacentPositions (some 3) 5 3 = [-1, 0, 1, 2, 3, 4, 5] ∧
    ¬(1 ≤ (adjacentBounds 3 5 3).1) ∧
    (adjacentBounds 3 5 3).2 - (adjacentBounds 3 5 3).1 + 1 ≠ min (2 * 3 + 1) 5 := by
  decide

/-- C1 (amended): for `1 ≤ position ≤ totalCount` and `radius ≥ 0`,
**provided additionally** `2·radius+1 ≤ totalCount` or
`radius ≥ totalCount`, `getAdjacentPositions` returns the inclusive
range `[lo, hi]` of `adjacentBounds` with `1 ≤ lo ≤ hi ≤ totalCount` and
width `hi - lo + 1 = min(2·radius+1, totalCount)`. (Without the extra
hypothesis the property fails whenever
`radius < totalCount ≤ 2·radius`, see the counterexample.) -/
theorem C1_window_bounds_and_width (pos total r : Int)
    (h1 : 1 ≤ pos) (h2 : pos ≤ total) (hr : 0 ≤ r)
    (hside : 2 * r + 1 ≤ total ∨ total ≤ r) :
    getAdjacentPositions (some pos) total r =
      intRange (adjacentBounds pos total r).1 (adjacentBounds pos total r).2 ∧
    1 ≤ (adjacentBounds pos total r).1 ∧
    (adjacentBounds pos total r).1 ≤ (adjacentBounds pos total r).2 ∧
    (adjacentBounds pos total r).2 ≤ total ∧
    (adjacentBounds pos total r).2 - (adjacentBounds pos total r).1 + 1 =
      min (2 * r + 1) total := by
  refine ⟨getAdjacentPositions_of_inRange h1 h2, ?_⟩
  rw [adjacentBounds_eq]
  split_ifs <;> refine ⟨by dsimp only; omega, by dsimp only; omega,
    by dsimp only; omega, by dsimp only; omega⟩

/-- C1 (witness): the amended theorem applied at
`(position, totalCount, radius) = (1, 20, 3)`. -/
theorem C1_witness :
    getAdjacentPositions (some 1) 20 3 = intRange 1 7 ∧ (1 : Int) ≤ 7 := by
  have h := C1_window_bounds_and_width 1 20 3 (by decide) (by decide) (by decide)
    (Or.inl (by decide))
  have hb : adjacentBounds 1 20 3 = (1, 7) := by decide
  rw [hb] at h
  exact ⟨h.1, h.2.2.1⟩

/-- C2 (counterexample): at `position = 3`, `totalCount = 5`,
`radius = 3` the position is in range, yet both corrections fire in the
same call: the initial lower bound `0` is below 1 (shift right fires),
and after that correction the upper bound is `7 > 5` (shift left also
fires). -/
theorem C2_counterexample :
    ((1 : Int) ≤ 3 ∧ (3 : Int) ≤ 5) ∧
    (initialBounds 3 5 3).1 < 1 ∧
    (correctLower (initialBounds 3 5 3)).2 > 5 := by
  decide

/-- C2 (amended): the two boundary corrections are mutually exclusive
**provided** `2·radius+1 ≤ totalCount` or `radius ≥ totalCount` — a
side condition the first branch of the code does *not* guarantee (its
guard is only `radius ≥ totalCount`), so the exclusivity fails for
`radius < totalCount ≤ 2·radius`, see the counterexample. -/
theorem C2_corrections_mutually_exclusive (pos total r : Int)
    (_h1 : 1 ≤ pos) (_h2 : pos ≤ total)
    (hside : 2 * r + 1 ≤ total ∨ total ≤ r) :
    ¬((initialBounds pos total r).1 < 1 ∧
      (correctLower (initialBounds pos total r)).2 > total) := by
  unfold correctLower initialBounds
  split_ifs <;> dsimp only <;> omega

/-- C2 (witness): the amended theorem applied at
`(position, totalCount, radius) = (1, 20, 3)`. -/
theorem C2_witness :
    ¬((initialBounds 1 20 3).1 < 1 ∧ (correctLower (initialBounds 1 20 3)).2 > 20) :=
  C2_corrections_mutually_exclusive 1 20 3 (by decide) (by decide) (Or.inl (by decide))

/-- C5: the four worked examples of the spec hold on the code:
`(1, 20, 3) ↦ [1..7]`, `(20, 20, 3) ↦ [14..20]`, `(10, 20, 3) ↦ [7..13]`,
and `(5, 3, 3) ↦ []` (position out of bounds). -/
theorem C5_worked_examples :
    getAdjacentPositions (some 1) 20 3 = [1, 2, 3, 4, 5, 6, 7] ∧
    getAdjacentPositions (some 20) 20 3 = [14, 15, 16, 17, 18, 19, 20] ∧
    getAdjacentPositions (some 10) 20 3 = [7, 8, 9, 10, 11, 12, 13] ∧
    getAdjacentPositions (some 5) 3 3 = [] := by
  decide

/-- C9: for every in-range position and every (non-negative) radius, the
returned window is non-empty, consists of consecutive ascending integers,
and contains the focal position itself. This holds even in the
double-correction cases where C1 fails: the window always covers
`position`. -/
theorem C9_focal_row_in_window (pos total : Int) (r : Nat)
    (h1 : 1 ≤ pos) (h2 : pos ≤ total) :
    getAdjacentPositions (some pos) total (r : Int) ≠ [] ∧
    pos ∈ getAdjacentPositions (some pos) total (r : Int) ∧
    (getAdjacentPositions (some pos) total (r : Int)).Chain'
      (fun a b => b = a + 1) := by
  rw [getAdjacentPositions_of_inRange h1 h2]
  have hb : (adjacentBounds pos total (r : Int)).1 ≤ pos ∧
      pos ≤ (adjacentBounds pos total (r : Int)).2 := by
    rw [adjacentBounds_eq]
    split_ifs <;> constructor <;> dsimp only <;> omega
  exact ⟨intRange_ne_nil (le_trans hb.1 hb.2), mem_intRange hb.1 hb.2,
    intRange_chain' _ _⟩

/-- C9 (witness): the theorem applied at
`(position, totalCount, radius) = (10, 20, 3)`. -/
theorem C9_witness :
    getAdjacentPositions (some 10) 20 ((3 : Nat) : Int) ≠ [] ∧
    (10 : Int) ∈ getAdjacentPositions (some 10) 20 ((3 : Nat) : Int) ∧
    (getAdjacentPositions (some 10) 20 ((3 : Nat) : Int)).Chain'
      (fun a b => b = a + 1) :=
  C9_focal_row_in_window 10 20 3 (by decide) (by decide)

/-! ## Claims about snapshot row selection -/

/-- A one-entry snapshot whose player row carries the malformed position
5 (outside `[1, 1]`). -/
def badPositionSnap : RaceSnapshot :=
  { tableEntries := [{ driverInfo := { index := 0, isPlayer := true, position := 5 } }]
    isSpectating := false
    raceEnded := false }

/-- C3 (counterexample): on a snapshot whose player position 5 is outside
`[1, totalCount] = [1, 1]`, `getAdjacentPositions` does return the empty
window, but `getRelevantRaceTableRows` returns the **full**, non-empty
row list, not an empty one: in JS the empty window makes
`lowerIndex = NaN` and `upperIndex = undefined`, and
`slice(NaN, undefined)` copies the whole array. -/
theorem C3_counterexample :
    getAdjacentPositions (getPlayerPosition badPositionSnap) 1 3 = [] ∧
    getRelevantRaceTableRows badPositionSnap 3 = badPositionSnap.tableEntries ∧
    badPositionSnap.tableEntries ≠ [] := by
  decide

/-- C3 (amended): for a live, non-spectating snapshot whose player
position is `null` or outside `[1, totalCount]`, `getAdjacentPositions`
returns the empty sequence (and, being a total function, cannot throw),
and `getRelevantRaceTableRows` then returns the **full** row list —
it degrades by showing every row rather than crashing (not by rendering
nothing, as originally claimed). -/
theorem C3_out_of_range_renders_all (data : RaceSnapshot) (r : Int)
    (hne : data.tableEntries ≠ [])
    (hspec : data.isSpectating = false) (hend : data.raceEnded = false)
    (hout : ∀ p, getPlayerPosition data = some p →
      ¬(1 ≤ p ∧ p ≤ (data.tableEntries.length : Int))) :
    getAdjacentPositions (getPlayerPosition data) (data.tableEntries.length : Int) r = [] ∧
    getRelevantRaceTableRows data r = data.tableEntries := by
  have hwin : getAdjacentPositions (getPlayerPosition data)
      (data.tableEntries.length : Int) r = [] :=
    getAdjacentPositions_of_notInRange hout
  refine ⟨hwin, ?_⟩
  have hlen : ¬(data.tableEntries.length = 0) := by
    simpa [List.length_eq_zero] using hne
  simp only [getRelevantRaceTableRows, hspec, hend, Bool.or_self, Bool.false_eq_true,
    if_false, if_neg hlen, hwin]
  simpa [jsIndex, jsSub] using jsSlice_nan_undefined data.tableEntries

/-- C3 (witness): the amended theorem applied to the concrete snapshot
with player position 5 among 1 entry. -/
theorem C3_witness :
    badPositionSnap.tableEntries ≠ [] ∧
    getRelevantRaceTableRows badPositionSnap 3 = badPositionSnap.tableEntries := by
  have h := C3_out_of_range_renders_all badPositionSnap 3 (by decide) rfl rfl
    (by
      intro p hp
      have hp5 : (5 : Int) = p := Option.some.inj hp
      have hlen1 : badPositionSnap.tableEntries.length = 1 := rfl
      rw [hlen1]
      omega)
  exact ⟨by decide, h.2⟩

/-- A two-entry snapshot in which no row is the player's. -/
def noPlayerSnap : RaceSnapshot :=
  { tableEntries := [{ driverInfo := { index := 0, isPlayer := false, position := 1 } },
                     { driverInfo := { index := 1, isPlayer := false, position := 2 } }]
    isSpectating := false
    raceEnded := false }

/-- C4: for a live, non-spectating snapshot with a non-empty row list in
which no entry is flagged as the player, `getRelevantRaceTableRows`
returns the full row list unchanged: `getPlayerPosition` yields `null`,
the window is empty, and JS `slice(NaN, undefined)` copies the whole
array. -/
theorem C4_missing_player_shows_all (data : RaceSnapshot) (r : Int)
    (hne : data.tableEntries ≠ [])
    (hspec : data.isSpectating = false) (hend : data.raceEnded = false)
    (hnp : ∀ e ∈ data.tableEntries, e.driverInfo.isPlayer = false) :
    getRelevantRaceTableRows data r = data.tableEntries := by
  have hpp : getPlayerPosition data = none := by
    simp only [getPlayerPosition, Option.map_eq_none']
    rw [List.find?_eq_none]
    intro e he
    simp [hnp e he]
  have hlen : ¬(data.tableEntries.length = 0) := by
    simpa [List.length_eq_zero] using hne
  simp only [getRelevantRaceTableRows, hspec, hend, Bool.or_self, Bool.false_eq_true,
    if_false, if_neg hlen, hpp]
  simpa [getAdjacentPositions, jsIndex, jsSub] using
    jsSlice_nan_undefined data.tableEntries

/-- C4 (witness): the theorem applied to the concrete two-entry snapshot
without a player row. -/
theorem C4_witness :
    noPlayerSnap.tableEntries ≠ [] ∧
    getRelevantRaceTableRows noPlayerSnap 3 = noPlayerSnap.tableEntries :=
  ⟨by decide, C4_missing_player_shows_all noPlayerSnap 3 (by decide) rfl rfl (by decide)⟩

/-! ## Claims about the pace-comparison overlay -/

/-- C6: per-slot availability gating of `PaceComparison.update`.
(1) If the player's data is unavailable, every delta slot keeps the fixed
placeholder and nothing is logged. (2)/(3) If a neighbour's data is
unavailable, that neighbour's lap-delta and sector slots keep the
placeholder. (4) When both neighbours lack data (with player data
present), the anomaly is logged, all slots keep the placeholder, and —
the function being total — no exception is raised. (5)/(6) When the
player's and a neighbour's data are both present, that neighbour's delta
slots are rendered from the computed deltas. (7) The anomaly is logged
exactly in case (4). -/
theorem C6_availability_gating (st : PaceWidgetState) (data : PaceData) :
    (isDataAvailable data.player = false →
      (PaceComparison.update st data).prevDeltaText = "---" ∧
      (PaceComparison.update st data).nextDeltaText = "---" ∧
      (PaceComparison.update st data).prevSectorTexts = ["---", "---", "---"] ∧
      (PaceComparison.update st data).nextSectorTexts = ["---", "---", "---"] ∧
      (PaceComparison.update st data).loggedBothUnavailable = false) ∧
    (isDataAvailable data.prev = false →
      (PaceComparison.update st data).prevDeltaText = "---" ∧
      (PaceComparison.update st data).prevSectorTexts = ["---", "---", "---"]) ∧
    (isDataAvailable data.next = false →
      (PaceComparison.update st data).nextDeltaText = "---" ∧
      (PaceComparison.update st data).nextSectorTexts = ["---", "---", "---"]) ∧
    (isDataAvailable data.player = true → isDataAvailable data.prev = false →
        isDataAvailable data.next = false →
      (PaceComparison.update st data).loggedBothUnavailable = true ∧
      (PaceComparison.update st data).prevDeltaText = "---" ∧
      (PaceComparison.update st data).nextDeltaText = "---" ∧
      (PaceComparison.update st data).prevSectorTexts = ["---", "---", "---"] ∧
      (PaceComparison.update st data).nextSectorTexts = ["---", "---", "---"]) ∧
    (isDataAvailable data.player = true → isDataAvailable data.prev = true →
      (PaceComparison.update st data).prevDeltaText =
        formatDelta (jsSubOpt data.player.lapMs data.prev.lapMs) ∧
      (PaceComparison.update st data).prevSectorTexts =
        (sectorDeltas data.player data.prev).map formatDelta) ∧
    (isDataAvailable data.player = true → isDataAvailable data.next = true →
      (PaceComparison.update st data).nextDeltaText =
        formatDelta (jsSubOpt data.player.lapMs data.next.lapMs) ∧
      (PaceComparison.update st data).nextSectorTexts =
        (sectorDeltas data.player data.next).map formatDelta) ∧
    ((PaceComparison.update st data).loggedBothUnavailable = true ↔
      (isDataAvailable data.player = true ∧ isDataAvailable data.prev = false ∧
        isDataAvailable data.next = false)) := by
  cases hpl : isDataAvailable data.player <;>
    cases hpr : isDataAvailable data.prev <;>
      cases hnx : isDataAvailable data.next <;>
        simp [PaceComparison.update, hpl, hpr, hnx] <;>
          split_ifs <;> simp

/-- A player record with full timing data. -/
def playerOkData : PaceDriverData :=
  { name := some "HAM", lastMs := some 90000, sector1Ms := some 30000,
    sector2Ms := some 30000, sector3Ms := some 30000, lapMs := some 90000 }

/-- A neighbour record with every timing field null. -/
def nullDriverData : PaceDriverData :=
  { name := none, lastMs := none, sector1Ms := none,
    sector2Ms := none, sector3Ms := none, lapMs := none }

/-- A blank overlay state. -/
def emptyPaceState : PaceWidgetState :=
  { prevDriverText := "", nextDriverText := "", prevDeltaText := "",
    nextDeltaText := "", prevDeltaClass := none, nextDeltaClass := none,
    prevSectorTexts := [], nextSectorTexts := [], prevSectorClasses := [],
    nextSectorClasses := [], loggedBothUnavailable := false }

/-- Update data in which the player has data but both neighbours do not. -/
def bothMissingPaceData : PaceData :=
  { player := playerOkData, prev := nullDriverData, next := nullDriverData }

/-- C6 (witness): the theorem applied to a concrete input where the
player's data is present and both neighbours' data is null: the anomaly
is logged and every delta slot keeps the placeholder. -/
theorem C6_witness :
    isDataAvailable bothMissingPaceData.player = true ∧
    isDataAvailable bothMissingPaceData.prev = false ∧
    isDataAvailable bothMissingPaceData.next = false ∧
    (PaceComparison.update emptyPaceState bothMissingPaceData).loggedBothUnavailable = true ∧
    (PaceComparison.update emptyPaceState bothMissingPaceData).prevDeltaText = "---" := by
  refine ⟨by decide, by decide, by decide, ?_, ?_⟩
  · exact ((C6_availability_gating emptyPaceState bothMissingPaceData).2.2.2.1
      (by decide) (by decide) (by decide)).1
  · exact ((C6_availability_gating emptyPaceState bothMissingPaceData).2.2.2.1
      (by decide) (by decide) (by decide)).2.1

/-- C7: a pace delta is `player_time - neighbour_time`; its colour class
follows its sign — positive means slower (`text-danger`), negative means
faster (`text-success`), zero means neutral (no class). In `update`, the
lap-delta class of a neighbour with available data is exactly
`updateElementDelta` of that difference. In particular a player lap of
90000 ms against a neighbour lap of 91200 ms gives delta −1200,
classified faster. -/
theorem C7_delta_sign_classification :
    (∀ d : Int,
      (updateElementDelta d = some "text-danger" ↔ 0 < d) ∧
      (updateElementDelta d = some "text-success" ↔ d < 0) ∧
      (updateElementDelta d = none ↔ d = 0)) ∧
    (∀ (st : PaceWidgetState) (data : PaceData),
      isDataAvailable data.player = true → isDataAvailable data.prev = true →
      (PaceComparison.update st data).prevDeltaClass =
        updateElementDelta (jsSubOpt data.player.lapMs data.prev.lapMs)) ∧
    (∀ (st : PaceWidgetState) (data : PaceData),
      isDataAvailable data.player = true → isDataAvailable data.next = true →
      (PaceComparison.update st data).nextDeltaClass =
        updateElementDelta (jsSubOpt data.player.lapMs data.next.lapMs)) ∧
    (jsSubOpt (some 90000) (some 91200) = -1200 ∧
      updateElementDelta (-1200) = some "text-success") := by
  refine ⟨?_, ?_, ?_, by decide⟩
  · intro d
    unfold updateElementDelta
    split_ifs <;> refine ⟨⟨?_, ?_⟩, ⟨?_, ?_⟩, ⟨?_, ?_⟩⟩ <;>
      simp_all <;> omega
  · intro st data hpl hpr
    cases hnx : isDataAvailable data.next <;>
      simp [PaceComparison.update, hpl, hpr, hnx]
  · intro st data hpl hnx
    cases hpr : isDataAvailable data.prev <;>
      simp [PaceComparison.update, hpl, hpr, hnx]

/-- C7 (witness): the theorem's sign rules and delta equation applied at
concrete deltas. -/
theorem C7_witness :
    updateElementDelta 500 = some "text-danger" ∧
    updateElementDelta (-1200) = some "text-success" ∧
    updateElementDelta 0 = none :=
  ⟨(C7_delta_sign_classification.1 500).1.mpr (by decide),
   (C7_delta_sign_classification.1 (-1200)).2.1.mpr (by decide),
   (C7_delta_sign_classification.1 0).2.2.mpr (by decide)⟩

/-! ## Claims about the lap-time history widget -/

/-- C8: `applyColourToCell` applies exactly the first matching rule of
the precedence order fastest-overall (purple) > personal-best (green) >
invalid-flagged (red) > default (no class), where the fastest-overall
rule matches when a (non-zero, i.e. existing) global best time equals the
cell's time, and the personal-best rule when a (non-zero) personal-best
lap number equals the cell's lap number. In particular a time equal to
the global fastest is purple even when its lap is also the personal-best
lap. -/
theorem C8_cell_colour_precedence :
    (∀ (lapNum time globalBestTime pbLapNum : Int) (isValid : Nat),
      (globalBestTime ≠ 0 → time = globalBestTime →
        applyColourToCell lapNum time globalBestTime pbLapNum isValid = some "text-purple") ∧
      (¬(globalBestTime ≠ 0 ∧ time = globalBestTime) → pbLapNum ≠ 0 → lapNum = pbLapNum →
        applyColourToCell lapNum time globalBestTime pbLapNum isValid = some "text-success") ∧
      (¬(globalBestTime ≠ 0 ∧ time = globalBestTime) → ¬(pbLapNum ≠ 0 ∧ lapNum = pbLapNum) →
        isValid = 0 →
        applyColourToCell lapNum time globalBestTime pbLapNum isValid = some "text-danger") ∧
      (¬(globalBestTime ≠ 0 ∧ time = globalBestTime) → ¬(pbLapNum ≠ 0 ∧ lapNum = pbLapNum) →
        isValid ≠ 0 →
        applyColourToCell lapNum time globalBestTime pbLapNum isValid = none)) ∧
    (∀ (lapNum time globalBestTime pbLapNum : Int) (isValid : Nat),
      globalBestTime ≠ 0 → time = globalBestTime → lapNum = pbLapNum →
        applyColourToCell lapNum time globalBestTime pbLapNum isValid = some "text-purple") := by
  constructor
  · intro lapNum time globalBestTime pbLapNum isValid
    refine ⟨?_, ?_, ?_, ?_⟩ <;> intros <;> simp only [applyColourToCell] <;>
      split_ifs <;> simp_all
  · intro lapNum time globalBestTime pbLapNum isValid h1 h2 h3
    simp only [applyColourToCell]
    split_ifs <;> simp_all

/-- C8 (witness): the theorem applied at a cell whose time 90000 ms
equals the global fastest and whose lap 4 is also the personal-best lap:
the cell is purple, not green. -/
theorem C8_witness :
    applyColourToCell 4 90000 90000 4 1 = some "text-purple" :=
  C8_cell_colour_precedence.2 4 90000 90000 4 1 (by decide) (by decide) (by decide)

/-- C10: in `LapTimeTableWidget.update`, the rendered rows are exactly
the rows built by `renderLapRow` over the last (at most) five history
entries; each rendered time cell shows `getValidTimeStr` of its
millisecond value, so any lap or sector time of 0 ms is displayed as the
placeholder `"---"` rather than a formatted 0 ms time. -/
theorem C10_zero_time_renders_placeholder (lth : LapTimeHistory) (i : Nat) (lap : LapData)
    (hmem : (i, lap) ∈ lth.lapTimeHistoryData.enum.reverse.take 5) :
    LapTimeTableWidget.update (some lth) =
      (lth.lapTimeHistoryData.enum.reverse.take 5).map (fun p => renderLapRow lth p.1 p.2) ∧
    renderLapRow lth i lap ∈ LapTimeTableWidget.update (some lth) ∧
    (renderLapRow lth i lap).lapTimeText = getValidTimeStr lap.lapTimeInMs lap.lapTimeStr ∧
    (renderLapRow lth i lap).s1TimeText = getValidTimeStr lap.sector1TimeInMs lap.sector1TimeStr ∧
    (renderLapRow lth i lap).s2TimeText = getValidTimeStr lap.sector2TimeInMs lap.sector2TimeStr ∧
    (renderLapRow lth i lap).s3TimeText = getValidTimeStr lap.sector3TimeInMs lap.sector3TimeStr ∧
    (lap.lapTimeInMs = 0 → (renderLapRow lth i lap).lapTimeText = "---") ∧
    (lap.sector1TimeInMs = 0 → (renderLapRow lth i lap).s1TimeText = "---") ∧
    (lap.sector2TimeInMs = 0 → (renderLapRow lth i lap).s2TimeText = "---") ∧
    (lap.sector3TimeInMs = 0 → (renderLapRow lth i lap).s3TimeText = "---") := by
  refine ⟨rfl, ?_, rfl, rfl, rfl, rfl, ?_, ?_, ?_, ?_⟩
  · have : renderLapRow lth i lap = (fun p : Nat × LapData => renderLapRow lth p.1 p.2) (i, lap) :=
      rfl
    rw [this]
    exact List.mem_map_of_mem _ hmem
  all_goals intro h0
  all_goals simp [renderLapRow, getValidTimeStr, h0]

/-- A history entry whose lap time and first sector time are 0 ms
(absent) while the remaining sectors carry real times. -/
def zeroTimedLap : LapData :=
  { tyreSetInfo := some "Soft", lapTimeInMs := 0, lapTimeStr := "0:00.000",
    sector1TimeInMs := 0, sector1TimeStr := "0.000",
    sector2TimeInMs := 30000, sector2TimeStr := "30.000",
    sector3TimeInMs := 30000, sector3TimeStr := "30.000",
    lapValidBitFlags := 15 }

/-- A one-entry lap-time history containing `zeroTimedLap`. -/
def zeroTimedHistory : LapTimeHistory :=
  { fastestLapNumber := 0, fastestS1LapNumber := 0, fastestS2LapNumber := 0,
    fastestS3LapNumber := 0, globalFastestLapMs := 0, globalFastestS1Ms := 0,
    globalFastestS2Ms := 0, globalFastestS3Ms := 0,
    lapTimeHistoryData := [zeroTimedLap] }

/-- C10 (witness): the theorem applied to the one-entry history whose
lap's lap time and sector-1 time are 0 ms: those cells display `"---"`,
the others display their formatted strings. -/
theorem C10_witness :
    (renderLapRow zeroTimedHistory 0 zeroTimedLap).lapTimeText = "---" ∧
    (renderLapRow zeroTimedHistory 0 zeroTimedLap).s1TimeText = "---" ∧
    (renderLapRow zeroTimedHistory 0 zeroTimedLap).s2TimeText = "30.000" := by
  have h := C10_zero_time_renders_placeholder zeroTimedHistory 0 zeroTimedLap (by decide)
  exact ⟨h.2.2.2.2.2.2.1 rfl, h.2.2.2.2.2.2.2.1 rfl, h.2.2.2.2.1⟩

end F1Telemetry
